import Mathlib

/-!
EasyGPT backend — verification of the response-normalizer and router claims.

Shallow embedding of the EasyGPT backend's only non-trivial logic:

* `src/backend/services/parsers.py` — `_safe_json_loads`, `_extract_json_block`,
  `parse_cards_from_text`, `parse_followup_from_text`;
* `src/backend/config.py` — `_build_models_config`, `resolve_provider_and_model`;
* `src/backend/services/llm_client.py` — `LLMClient.generate` (credential gate
  and dispatch; the provider SDK calls are external collaborators and are
  modelled as an oracle parameter).

Modelling conventions:

* Python values that can flow through these functions (results of
  `json.loads` / `yaml.safe_load`) are modelled by `JValue`.  JSON/YAML
  numbers are modelled on integers; fractional and exponent literals, `NaN`
  and `Infinity` are outside the model.  Mapping keys are modelled as strings
  (YAML can produce non-string keys, which the code passes through `str`).
* Python exceptions are modelled with `Except String`; the error string
  records the exception class and message.
* `uuid.uuid4()` is modelled by an explicit supply `gen : Nat → String`
  applied to the index of the generation site (the enumerate index for card
  elements, `0` for the fallback/follow-up card): the code places no
  requirement on the generated values beyond being strings.
* Character classes (`\s` in regexes, `str.strip`, `str.lower`) are modelled
  on their ASCII behaviour; the extra Unicode whitespace classes of Python
  are outside the model.
-/

/-- Characters that Python's `re` module `\s` class and `str.strip()` treat as
whitespace, restricted to the ASCII range (plus `\x85`). -/
def pyIsWs (c : Char) : Bool :=
  c = ' ' || c = Char.ofNat 9 || c = Char.ofNat 10 || c = Char.ofNat 13 ||
  c = Char.ofNat 11 || c = Char.ofNat 12 || c = Char.ofNat 28 ||
  c = Char.ofNat 29 || c = Char.ofNat 30 || c = Char.ofNat 31 || c = Char.ofNat 133

/-- The four whitespace characters permitted between tokens by the JSON
grammar (what Python's `json.loads` skips). -/
def jsonIsWs (c : Char) : Bool :=
  c = ' ' || c = Char.ofNat 9 || c = Char.ofNat 10 || c = Char.ofNat 13

/-- The double-quote character. -/
def dquote : Char := Char.ofNat 34

/-- The single-quote character. -/
def squote : Char := Char.ofNat 39

/-- The backslash character. -/
def bslash : Char := Char.ofNat 92

/-- The backtick character. -/
def btick : Char := Char.ofNat 96

/-- The opening-brace character. -/
def lbrace : Char := Char.ofNat 123

/-- The closing-brace character. -/
def rbrace : Char := Char.ofNat 125

/-- Model of the Python values produced by `json.loads` / `yaml.safe_load`
and consumed by the parser and configuration code. -/
inductive JValue where
  | jnull : JValue
  | jbool (b : Bool) : JValue
  | jnum (n : Int) : JValue
  | jstr (s : String) : JValue
  | jarr (elems : List JValue) : JValue
  | jobj (fields : List (String × JValue)) : JValue

/-- First-match lookup in an association list (Python `dict` lookup; objects
are built with `upsert`, so a key occurs at most once). -/
def alookup {α : Type} (m : List (String × α)) (k : String) : Option α :=
  match m with
  | [] => none
  | (k', v) :: rest => if k' = k then some v else alookup rest k

/-- Insert-or-replace for association lists, keeping the original position of
an existing key (Python `dict` assignment semantics). -/
def upsert {α : Type} (m : List (String × α)) (k : String) (v : α) :
    List (String × α) :=
  match m with
  | [] => [(k, v)]
  | (k', v') :: rest =>
      if k' = k then (k, v) :: rest else (k', v') :: upsert rest k v

/-- Python truthiness (`bool(x)`) for the modelled values. -/
def pyTruthy (v : JValue) : Bool :=
  match v with
  | .jnull => false
  | .jbool b => b
  | .jnum n => n ≠ 0
  | .jstr s => ¬ s.isEmpty
  | .jarr l => ¬ l.isEmpty
  | .jobj f => ¬ f.isEmpty

/-- Python type name of a modelled value, as it appears in exception
messages. -/
def pyTypeName (v : JValue) : String :=
  match v with
  | .jnull => "NoneType"
  | .jbool _ => "bool"
  | .jnum _ => "int"
  | .jstr _ => "str"
  | .jarr _ => "list"
  | .jobj _ => "dict"

mutual

/-- Model of Python `str(x)` on the modelled values.  Strings pass through
unchanged; containers render via `repr` of their elements. -/
def pyStr (v : JValue) : String :=
  match v with
  | .jstr s => s
  | .jnull => "None"
  | .jbool true => "True"
  | .jbool false => "False"
  | .jnum n => toString n
  | .jarr l => "[" ++ String.intercalate ", " (pyReprList l) ++ "]"
  | .jobj f => "\x7b" ++ String.intercalate ", " (pyReprFields f) ++ "\x7d"

/-- Model of Python `repr(x)` for values nested inside a container rendering.
String escaping is modelled for the backslash and single-quote characters
only (Python additionally switches quote style and escapes non-printables). -/
def pyRepr (v : JValue) : String :=
  match v with
  | .jstr s =>
      String.singleton squote ++
        String.join (s.data.map fun c =>
          if c = bslash then String.singleton bslash ++ String.singleton bslash
          else if c = squote then String.singleton bslash ++ String.singleton squote
          else String.singleton c) ++
      String.singleton squote
  | .jnull => "None"
  | .jbool true => "True"
  | .jbool false => "False"
  | .jnum n => toString n
  | .jarr l => "[" ++ String.intercalate ", " (pyReprList l) ++ "]"
  | .jobj f => "\x7b" ++ String.intercalate ", " (pyReprFields f) ++ "\x7d"

/-- `repr` applied across a list. -/
def pyReprList (l : List JValue) : List String :=
  match l with
  | [] => []
  | v :: rest => pyRepr v :: pyReprList rest

/-- `repr(key): repr(value)` applied across a dict's entries. -/
def pyReprFields (f : List (String × JValue)) : List String :=
  match f with
  | [] => []
  | (k, v) :: rest => (pyRepr (.jstr k) ++ ": " ++ pyRepr v) :: pyReprFields rest

end

/-- Model of Python `str.strip()` on the modelled whitespace set. -/
def pyStrip (s : String) : String :=
  ⟨(s.data.dropWhile pyIsWs).reverse.dropWhile pyIsWs |>.reverse⟩

/-- Model of Python `str.lower()` on one character (ASCII range; Unicode
case mapping is outside the model). -/
def pyLowerChar (c : Char) : Char :=
  if 65 ≤ c.toNat ∧ c.toNat ≤ 90 then Char.ofNat (c.toNat + 32) else c

/-- Model of Python `str.lower()`. -/
def pyLower (s : String) : String := ⟨s.data.map pyLowerChar⟩

/-- Drop leading JSON whitespace. -/
def skipJsonWs (cs : List Char) : List Char := cs.dropWhile jsonIsWs

/-- Parse exactly four hexadecimal digits of a `\uXXXX` escape. -/
def parseHex4 (cs : List Char) : Option (Nat × List Char) :=
  match cs with
  | c1 :: c2 :: c3 :: c4 :: rest =>
      let hv : Char → Option Nat := fun c =>
        if c.isDigit then some (c.toNat - 48)
        else if 97 ≤ c.toNat ∧ c.toNat ≤ 102 then some (c.toNat - 87)
        else if 65 ≤ c.toNat ∧ c.toNat ≤ 70 then some (c.toNat - 55)
        else none
      match hv c1, hv c2, hv c3, hv c4 with
      | some a, some b, some c, some d =>
          some (a * 4096 + b * 256 + c * 16 + d, rest)
      | _, _, _, _ => none
  | _ => none

/-- Parse the body of a JSON string literal (the opening quote already
consumed), handling the JSON escape sequences.  Surrogate `\u` escapes are
resolved as pairs; lone surrogates (which CPython's decoder lets through) are
outside the model.  Unescaped control characters are rejected, as in strict
`json.loads`. -/
def parseJsonStr (cs : List Char) : Option (String × List Char) :=
  go (cs.length + 1) cs []
where
  go : Nat → List Char → List Char → Option (String × List Char)
  | 0, _, _ => none
  | _ + 1, [], _ => none
  | fuel + 1, c :: rest, acc =>
      let go := go fuel
      if c = dquote then some (⟨acc.reverse⟩, rest)
      else if c = bslash then
        match rest with
        | [] => none
        | e :: rest' =>
            if e = dquote then go rest' (dquote :: acc)
            else if e = bslash then go rest' (bslash :: acc)
            else if e = '/' then go rest' ('/' :: acc)
            else if e = 'b' then go rest' (Char.ofNat 8 :: acc)
            else if e = 'f' then go rest' (Char.ofNat 12 :: acc)
            else if e = 'n' then go rest' (Char.ofNat 10 :: acc)
            else if e = 'r' then go rest' (Char.ofNat 13 :: acc)
            else if e = 't' then go rest' (Char.ofNat 9 :: acc)
            else if e = 'u' then
              match parseHex4 rest' with
              | none => none
              | some (n, rest'') =>
                  if n < 0xd800 ∨ n ≥ 0xe000 then
                    go rest'' (Char.ofNat n :: acc)
                  else if n < 0xdc00 then
                    -- high surrogate: require an immediately following low
                    -- surrogate escape, combining the pair
                    match rest'' with
                    | b1 :: b2 :: rest''' =>
                        if b1 = bslash ∧ b2 = 'u' then
                          match parseHex4 rest''' with
                          | some (n2, rest4) =>
                              if 0xdc00 ≤ n2 ∧ n2 < 0xe000 then
                                go rest4
                                  (Char.ofNat
                                    (0x10000 + (n - 0xd800) * 0x400 + (n2 - 0xdc00)) :: acc)
                              else none
                          | none => none
                        else none
                    | _ => none
                  else none
            else none
      else if c.toNat < 32 then none
      else go rest (c :: acc)

/-- Parse a JSON integer literal (optional minus sign, no leading zeros).
A following `.`, `e` or `E` (a fractional or exponent part) is outside the
model and rejected. -/
def parseJsonNum (cs : List Char) : Option (Int × List Char) :=
  let (neg, cs') : Bool × List Char :=
    match cs with
    | c :: rest => if c = '-' then (true, rest) else (false, cs)
    | [] => (false, cs)
  let digits := cs'.takeWhile Char.isDigit
  let rest := cs'.dropWhile Char.isDigit
  if digits.isEmpty then none
  else if digits.length > 1 ∧ digits.headD '0' = '0' then none
  else
    match rest with
    | c :: _ => if c = '.' ∨ c = 'e' ∨ c = 'E' then none else
        let n : Nat := digits.foldl (fun a c => a * 10 + (c.toNat - 48)) 0
        some (if neg then -(n : Int) else (n : Int), rest)
    | [] =>
        let n : Nat := digits.foldl (fun a c => a * 10 + (c.toNat - 48)) 0
        some (if neg then -(n : Int) else (n : Int), rest)

mutual

/-- Fuel-based recursive-descent parser for a JSON value, mirroring the
grammar accepted by Python's `json.loads` (minus the modelling restrictions
noted above).  Returns the value and the unconsumed input. -/
def parseJsonVal : Nat → List Char → Option (JValue × List Char)
  | 0, _ => none
  | fuel + 1, cs =>
    match skipJsonWs cs with
    | [] => none
    | c :: rest =>
        if c = lbrace then parseObjBody fuel (skipJsonWs rest) []
        else if c = '[' then parseArrBody fuel (skipJsonWs rest) []
        else if c = dquote then
          match parseJsonStr rest with
          | some (s, rest') => some (.jstr s, rest')
          | none => none
        else if c = 't' then
          match rest with
          | 'r' :: 'u' :: 'e' :: rest' => some (.jbool true, rest')
          | _ => none
        else if c = 'f' then
          match rest with
          | 'a' :: 'l' :: 's' :: 'e' :: rest' => some (.jbool false, rest')
          | _ => none
        else if c = 'n' then
          match rest with
          | 'u' :: 'l' :: 'l' :: rest' => some (.jnull, rest')
          | _ => none
        else
          match parseJsonNum (c :: rest) with
          | some (n, rest') => some (.jnum n, rest')
          | none => none

/-- Parse the inside of a JSON object after `{` (and leading whitespace);
`acc` holds the fields read so far.  Duplicate keys overwrite (Python builds
the dict by repeated assignment). -/
def parseObjBody : Nat → List Char → List (String × JValue) →
    Option (JValue × List Char)
  | 0, _, _ => none
  | _ + 1, [], _ => none
  | fuel + 1, c :: rest, acc =>
      if c = rbrace ∧ acc.isEmpty then some (.jobj [], rest)
      else if c = dquote then
        match parseJsonStr rest with
        | none => none
        | some (k, rest') =>
            match skipJsonWs rest' with
            | ':' :: rest'' =>
                match parseJsonVal fuel rest'' with
                | none => none
                | some (v, rest3) =>
                    let acc' := upsert acc k v
                    match skipJsonWs rest3 with
                    | ',' :: rest4 =>
                        match skipJsonWs rest4 with
                        | d :: rest5 =>
                            if d = dquote then parseObjBody fuel (d :: rest5) acc'
                            else none
                        | [] => none
                    | d :: rest4 =>
                        if d = rbrace then some (.jobj acc', rest4) else none
                    | [] => none
            | _ => none
      else none

/-- Parse the inside of a JSON array after `[` (and leading whitespace). -/
def parseArrBody : Nat → List Char → List JValue → Option (JValue × List Char)
  | 0, _, _ => none
  | _ + 1, [], _ => none
  | fuel + 1, c :: rest, acc =>
      if c = ']' ∧ acc.isEmpty then some (.jarr [], rest)
      else
        match parseJsonVal fuel (c :: rest) with
        | none => none
        | some (v, rest') =>
            match skipJsonWs rest' with
            | ',' :: rest'' => parseArrBody fuel rest'' (v :: acc)
            | ']' :: rest'' => some (.jarr (v :: acc).reverse, rest'')
            | _ => none

end

/-- Model of `json.loads` on a character list: parse one JSON document,
allowing surrounding whitespace, requiring full consumption. -/
def jsonLoadsL (cs : List Char) : Option JValue :=
  match parseJsonVal (cs.length + 1) cs with
  | some (v, rest) => if (skipJsonWs rest).isEmpty then some v else none
  | none => none

/-- Model of `_safe_json_loads` from `parsers.py`: `json.loads`, with every
failure mapped to `None`. -/
def safe_json_loads (s : String) : Option JValue := jsonLoadsL s.data

/-- Index of the first occurrence of `c` (Python `str.find`, `-1` becomes
`none`). -/
def strFindIdx (cs : List Char) (c : Char) : Option Nat :=
  cs.findIdx? (· = c)

/-- Index of the last occurrence of `c` (Python `str.rfind`, `-1` becomes
`none`). -/
def strRFindIdx (cs : List Char) (c : Char) : Option Nat :=
  match (cs.reverse.findIdx? (· = c)) with
  | some j => some (cs.length - 1 - j)
  | none => none

/-- Step 1 of `_extract_json_block`: take the substring from the first `{` to
the last `}` and try `_safe_json_loads` on it.  `none` when the braces are
missing or mis-ordered, or the candidate does not parse. -/
def extractBraceSpan (text : String) : Option JValue :=
  let cs := text.data
  match strFindIdx cs lbrace, strRFindIdx cs rbrace with
  | some s, some e =>
      if s < e then jsonLoadsL ((cs.drop s).take (e + 1 - s)) else none
  | _, _ => none

/-- Regex semantics of `(three backticks)json\s*([\s\S]*?)\s*(three
backticks)` matched at a fixed start position, as a helper trio.  The
leading `\s*` is greedy, the group lazy, the trailing `\s*` greedy: since a
backtick is not whitespace, a successful match fixes the leading run to the
maximal whitespace run, and the group to the shortest body after which
dropping whitespace reaches three backticks (`fenceGrow`). -/
def ticks3 (cs : List Char) : Bool :=
  match cs with
  | t1 :: t2 :: t3 :: _ => t1 = btick ∧ t2 = btick ∧ t3 = btick
  | _ => false

/-- Search for the shortest capture: `remaining` is the part of the body not
yet captured, `acc` the captured part reversed.  Succeeds as soon as dropping
whitespace from the remainder reaches three backticks (the lazy group takes
the least prefix, the trailing greedy `\s*` the whitespace run). -/
def fenceGrow : List Char → List Char → Option (List Char)
  | remaining, acc =>
      if ticks3 (remaining.dropWhile pyIsWs) then some acc.reverse
      else
        match remaining with
        | [] => none
        | c :: rest => fenceGrow rest (c :: acc)

/-- Match the fenced-block pattern anchored at the start of `cs`: the literal
```json, the greedy whitespace run, then the lazy capture. -/
def fenceMatchAt (cs : List Char) : Option (List Char) :=
  match cs with
  | b1 :: b2 :: b3 :: 'j' :: 's' :: 'o' :: 'n' :: rest =>
      if b1 = btick ∧ b2 = btick ∧ b3 = btick then
        fenceGrow (rest.dropWhile pyIsWs) []
      else none
  | _ => none

/-- Model of `re.search` for the fenced-block pattern: try each start
position from the left, returning the first successful match's capture
group. -/
def fenceSearch (cs : List Char) : Option (List Char) :=
  match fenceMatchAt cs with
  | some g => some g
  | none =>
      match cs with
      | [] => none
      | _ :: rest => fenceSearch rest

/-- Model of `_extract_json_block` from `parsers.py`: brace-span stage first;
only when it yields no parsed value, the fenced ```json block stage. -/
def extract_json_block (text : String) : Option JValue :=
  match extractBraceSpan text with
  | some parsed => some parsed
  | none =>
      match fenceSearch text.data with
      | some grp => jsonLoadsL grp
      | none => none

/-- Whether the fenced-block stage of `_extract_json_block` is reached for a
given input: the code only falls through to the `re.search` when the
brace-span stage produced no parsed value. -/
def fenceStageAttempted (text : String) : Bool :=
  (extractBraceSpan text).isNone

/-- The `Card` pydantic model (`schemas.py`), restricted to the four fields
the parser constructs (all four are passed explicitly at every construction
site in `parsers.py`). -/
structure Card where
  id : String
  title : String
  content : String
  kind : String

/-- `str(item.get(key) or default)` — the coercion applied to each card
field: a missing key or a falsy value yields the default, any truthy value
is stringified. -/
def strOrDefault (f : List (String × JValue)) (key dflt : String) : String :=
  match alookup f key with
  | some v => if pyTruthy v then pyStr v else dflt
  | none => dflt

/-- The `Card(...)` constructor call of `parsers.py` applied to a dict
element: each field is `str(item.get(key) or default)`. -/
def coerceObjCard (gen : Nat → String) (idx : Nat) (titleDflt : String)
    (f : List (String × JValue)) : Card :=
  { id := strOrDefault f "id" (gen idx),
    title := strOrDefault f "title" titleDflt,
    content := strOrDefault f "content" "",
    kind := strOrDefault f "kind" "text" }

/-- Coerce one parsed element to a `Card` (the body of the loop in
`parse_cards_from_text`, and the `card` branch of
`parse_followup_from_text`).  On a non-dict element the attribute access
`item.get` raises, modelled as an error. -/
def coerceCardItem (gen : Nat → String) (idx : Nat) (titleDflt : String) :
    JValue → Except String Card
  | .jobj f => .ok (coerceObjCard gen idx titleDflt f)
  | v =>
      .error ("AttributeError: " ++ squote.toString ++ pyTypeName v ++
        squote.toString ++ " object has no attribute " ++ squote.toString ++
        "get" ++ squote.toString)

/-- `parsed.get("cards", []) or []` followed by `enumerate(...)`: a falsy
value is replaced by the empty list; a truthy non-iterable raises
`TypeError`; iterating a string yields its characters, iterating a dict
yields its keys. -/
def iterCardsValue (v : JValue) : Except String (List JValue) :=
  if pyTruthy v then
    match v with
    | .jarr l => .ok l
    | .jstr s => .ok (s.data.map fun c => .jstr (String.singleton c))
    | .jobj f => .ok (f.map fun kv => .jstr kv.1)
    | w =>
        .error ("TypeError: " ++ squote.toString ++ pyTypeName w ++
          squote.toString ++ " object is not iterable")
  else
    .ok []

/-- The coercion loop of `parse_cards_from_text` (`for idx, item in
enumerate(...)`), threading the 0-based enumerate index into the generated
id and the `"Card {idx + 1}"` default title. -/
def coerceAll (gen : Nat → String) : Nat → List JValue → Except String (List Card)
  | _, [] => .ok []
  | idx, item :: rest =>
      match coerceCardItem gen idx ("Card " ++ toString (idx + 1)) item with
      | .error e => .error e
      | .ok c =>
          match coerceAll gen (idx + 1) rest with
          | .error e => .error e
          | .ok cs => .ok (c :: cs)

/-- Model of `parse_cards_from_text` (`parsers.py`).  The `meta` dict of the
source is always returned empty and is omitted.  `gen` is the uuid supply. -/
def parse_cards_from_text (gen : Nat → String) (text : String) :
    Except String (List Card) :=
  let fallback : List Card :=
    [{ id := gen 0, title := "Response", content := pyStrip text, kind := "text" }]
  match extract_json_block text with
  | some (.jobj f) =>
      if pyTruthy (.jobj f) ∧ (alookup f "cards").isSome then
        match iterCardsValue ((alookup f "cards").getD (.jarr [])) with
        | .error e => .error e
        | .ok items =>
            match coerceAll gen 0 items with
            | .error e => .error e
            | .ok cards => if cards.isEmpty then .ok fallback else .ok cards
      else .ok fallback
  | some _ => .ok fallback
  | none => .ok fallback

/-- Model of `parse_followup_from_text` (`parsers.py`). -/
def parse_followup_from_text (gen : Nat → String) (text : String) :
    Except String Card :=
  let fallback : Card :=
    { id := gen 0, title := "Clarification", content := pyStrip text, kind := "text" }
  match extract_json_block text with
  | some (.jobj f) =>
      match alookup f "card" with
      | some item =>
          if pyTruthy (.jobj f) then coerceCardItem gen 0 "Clarification" item
          else .ok fallback
      | none => .ok fallback
  | some _ => .ok fallback
  | none => .ok fallback

/-- `ModelsConfig` from `config.py`: the YAML-derived default provider and
provider → model-list mapping. -/
structure ModelsConfig where
  default_provider : String
  providers : List (String × List String)

/-- `raw.get("models", {})` — raises `AttributeError` when the loaded YAML
document is not a mapping. -/
def modelsSectionOf (raw : JValue) : Except String JValue :=
  match raw with
  | .jobj m => .ok ((alookup m "models").getD (.jobj []))
  | v =>
      .error ("AttributeError: " ++ squote.toString ++ pyTypeName v ++
        squote.toString ++ " object has no attribute " ++ squote.toString ++
        "get" ++ squote.toString)

/-- `str(models_section.get("default_provider", "mock")).lower()`. -/
def defaultProviderOf (ms : JValue) : Except String String :=
  match ms with
  | .jobj m => .ok (pyLower (pyStr ((alookup m "default_provider").getD (.jstr "mock"))))
  | v =>
      .error ("AttributeError: " ++ squote.toString ++ pyTypeName v ++
        squote.toString ++ " object has no attribute " ++ squote.toString ++
        "get" ++ squote.toString)

/-- `models_section.get("providers", {}) or {}` — a falsy value is replaced
by the empty mapping. -/
def providersValueOf (ms : JValue) : Except String JValue :=
  match ms with
  | .jobj m =>
      let v := (alookup m "providers").getD (.jobj [])
      .ok (if pyTruthy v then v else .jobj [])
  | v =>
      .error ("AttributeError: " ++ squote.toString ++ pyTypeName v ++
        squote.toString ++ " object has no attribute " ++ squote.toString ++
        "get" ++ squote.toString)

/-- `providers.items()` — only a mapping has `.items`; the falsy case was
already replaced by the empty mapping. -/
def providersEntriesOf (pv : JValue) : Except String (List (String × JValue)) :=
  match pv with
  | .jobj entries => .ok entries
  | v =>
      .error ("AttributeError: " ++ squote.toString ++ pyTypeName v ++
        squote.toString ++ " object has no attribute " ++ squote.toString ++
        "items" ++ squote.toString)

/-- Normalization of one provider's raw models value: a list is mapped
through `str`, a string becomes a one-element list, anything else the empty
list. -/
def normalizeModelsValue (v : JValue) : List String :=
  match v with
  | .jarr l => l.map pyStr
  | .jstr s => [s]
  | _ => []

/-- The normalization loop of `_build_models_config`: lower-case every
provider key and normalize its models value, building the dict in iteration
order (later duplicates overwrite in place). -/
def normalizeProviders (entries : List (String × JValue)) :
    List (String × List String) :=
  entries.foldl (fun acc kv => upsert acc (pyLower kv.1) (normalizeModelsValue kv.2)) []

/-- Model of `_build_models_config` from `config.py`. -/
def build_models_config (raw : JValue) : Except String ModelsConfig := do
  let ms ← modelsSectionOf raw
  let dp0 ← defaultProviderOf ms
  let pv ← providersValueOf ms
  let entries ← providersEntriesOf pv
  let normalized := normalizeProviders entries
  let normalized :=
    if (alookup normalized "mock").isSome then normalized
    else normalized ++ [("mock", ["mock-model"])]
  let dp := if (alookup normalized dp0).isSome then dp0 else "mock"
  return { default_provider := dp, providers := normalized }

/-- Model of `resolve_provider_and_model` from `config.py`, over an explicit
configuration (the source reads the process-wide `settings.models`). -/
def resolve_provider_and_model (cfg : ModelsConfig)
    (provider model_override : Option String) : String × String :=
  let chosen_provider :=
    pyLower (match provider with
     | some p => if p.isEmpty then cfg.default_provider else p
     | none => cfg.default_provider)
  let provider_models := alookup cfg.providers chosen_provider
  let step :=
    match provider_models with
    | none => ("mock", (alookup cfg.providers "mock").getD ["mock-model"])
    | some [] => ("mock", (alookup cfg.providers "mock").getD ["mock-model"])
    | some l => (chosen_provider, l)
  let first_model : String :=
    match step.2 with
    | x :: _ => x
    | [] => "mock-model"
  match model_override with
  | some m => if ¬ m.isEmpty then (step.1, m) else (step.1, first_model)
  | none => (step.1, first_model)

/-- The environment-driven API credentials of `Settings` (`config.py`). -/
structure ApiKeys where
  openai_api_key : Option String
  gemini_api_key : Option String
  deepseek_api_key : Option String

/-- Python truthiness of an optional string (`not settings.x_api_key`). -/
def optTruthy : Option String → Bool
  | none => false
  | some s => ¬ s.isEmpty

/-- The token counts a provider collaborator reports. -/
structure BaseUsage where
  input_tokens : Option Int
  output_tokens : Option Int

/-- The usage dict after `generate` normalizes it: provider call metadata
plus latency, provider and model. -/
structure FinalUsage where
  input_tokens : Option Int
  output_tokens : Option Int
  latency_ms : Int
  provider : String
  model : String

/-- The exact text `LLMClient._mock` returns (`json.dumps` of its fixed
content dict). -/
def mockResponseText : String :=
  "\x7b\"cards\": [\x7b\"id\": \"overview\", \"title\": \"Overview\", \"content\": \"This is a mock response demonstrating the card layout.\", \"kind\": \"text\"\x7d, \x7b\"id\": \"step-1\", \"title\": \"Step 1\", \"content\": \"Explain step one clearly and concisely.\", \"kind\": \"text\"\x7d]\x7d"

/-- The message of the `RuntimeError` raised when a provider's API key is
missing, e.g. for the environment variable `OPENAI_API_KEY`. -/
def keyMissingMsg (envVar : String) : String :=
  envVar ++ " is not set. Please add it to your .env or switch provider to " ++
    squote.toString ++ "mock" ++ squote.toString ++ "."

/-- Model of `LLMClient.generate` (`llm_client.py`).  The provider SDK calls
(`_openai_chat`, `_gemini_generate`, `_deepseek_chat`) are external
collaborators, modelled by the oracle `providerCall` taking the resolved
provider and model (the prompts, temperature and token budget are passed
through unchanged and elided); `elapsed_ms` models the wall-clock latency
measurement.  A raised `RuntimeError` is the `.error` case, carrying no text
and no usage. -/
def llm_generate (keys : ApiKeys) (cfg : ModelsConfig)
    (providerCall : String → String → String × BaseUsage) (elapsed_ms : Int)
    (provider model : Option String) : Except String (String × FinalUsage) :=
  let pm := resolve_provider_and_model cfg provider model
  let provider_name := pm.1
  let model_name := pm.2
  let call : Except String (String × BaseUsage) :=
    if provider_name = "openai" then
      if ¬ optTruthy keys.openai_api_key then .error (keyMissingMsg "OPENAI_API_KEY")
      else .ok (providerCall provider_name model_name)
    else if provider_name = "gemini" then
      if ¬ optTruthy keys.gemini_api_key then .error (keyMissingMsg "GEMINI_API_KEY")
      else .ok (providerCall provider_name model_name)
    else if provider_name = "deepseek" then
      if ¬ optTruthy keys.deepseek_api_key then .error (keyMissingMsg "DEEPSEEK_API_KEY")
      else .ok (providerCall provider_name model_name)
    else
      .ok (mockResponseText, { input_tokens := some 0, output_tokens := some 0 })
  call.map fun tu =>
    (tu.1, { input_tokens := tu.2.input_tokens, output_tokens := tu.2.output_tokens,
             latency_ms := elapsed_ms, provider := provider_name, model := model_name })

/-! ## Helper lemmas -/

/-- The gen-independent projection of a card: title, content, kind. -/
def cardTCK (c : Card) : String × String × String := (c.title, c.content, c.kind)

theorem extract_json_block_of_span {t : String} {v : JValue}
    (h : extractBraceSpan t = some v) : extract_json_block t = some v := by
  simp [extract_json_block, h]

theorem extract_json_block_of_fence {t : String}
    (h : extractBraceSpan t = none) :
    extract_json_block t =
      (match fenceSearch t.data with
       | some grp => jsonLoadsL grp
       | none => none) := by
  simp [extract_json_block, h]

theorem cardTCK_coerceObjCard (g : Nat → String) (idx : Nat) (td : String)
    (f : List (String × JValue)) :
    cardTCK (coerceObjCard g idx td f) =
      (strOrDefault f "title" td, strOrDefault f "content" "",
        strOrDefault f "kind" "text") := rfl

theorem coerceAll_objs (items : List JValue) (gen : Nat → String) (k : Nat)
    (h : ∀ it ∈ items, ∃ f, it = JValue.jobj f) :
    ∃ cs, coerceAll gen k items = .ok cs ∧ cs.length = items.length ∧
      ∀ i f, items[i]? = some (.jobj f) →
        cs[i]? = some (coerceObjCard gen (k + i) ("Card " ++ toString (k + i + 1)) f) := by
  induction items generalizing k with
  | nil => exact ⟨[], rfl, rfl, by intro i f hi; simp at hi⟩
  | cons item rest ih =>
      obtain ⟨f₀, rfl⟩ := h item (List.mem_cons_self _ _)
      obtain ⟨cs', hcs', hlen, hget⟩ :=
        ih (k + 1) (fun it hit => h it (List.mem_cons_of_mem _ hit))
      refine ⟨coerceObjCard gen k ("Card " ++ toString (k + 1)) f₀ :: cs', ?_, ?_, ?_⟩
      · simp [coerceAll, coerceCardItem, hcs']
      · simp [hlen]
      · intro i f hi
        match i with
        | 0 =>
            simp at hi
            subst hi
            simp
        | j + 1 =>
            simp at hi
            have := hget j f hi
            simpa [show k + (j + 1) = k + 1 + j by omega] using this

theorem coerceAll_proj (items : List JValue) (k : Nat) (g1 g2 : Nat → String) :
    (coerceAll g1 k items).map (List.map cardTCK) =
      (coerceAll g2 k items).map (List.map cardTCK) := by
  induction items generalizing k with
  | nil => rfl
  | cons item rest ih =>
      cases item with
      | jobj f =>
          have htail := ih (k + 1)
          cases h1 : coerceAll g1 (k + 1) rest with
          | error e =>
              cases h2 : coerceAll g2 (k + 1) rest with
              | error e' =>
                  rw [h1, h2] at htail
                  simp [Except.map] at htail
                  simp [coerceAll, coerceCardItem, Except.map, h1, h2, htail]
              | ok cs2 =>
                  rw [h1, h2] at htail
                  simp [Except.map] at htail
          | ok cs1 =>
              cases h2 : coerceAll g2 (k + 1) rest with
              | error e' =>
                  rw [h1, h2] at htail
                  simp [Except.map] at htail
              | ok cs2 =>
                  rw [h1, h2] at htail
                  simp [Except.map] at htail
                  simp [coerceAll, coerceCardItem, Except.map, h1, h2, htail, cardTCK_coerceObjCard]
      | jnull => simp [coerceAll, coerceCardItem, Except.map]
      | jbool b => simp [coerceAll, coerceCardItem, Except.map]
      | jnum n => simp [coerceAll, coerceCardItem, Except.map]
      | jstr s => simp [coerceAll, coerceCardItem, Except.map]
      | jarr l => simp [coerceAll, coerceCardItem, Except.map]

/-- C9: two runs of `parse_cards_from_text` on the same text differ at most
in the generated ids: the title/content/kind projections (and any raised
error) coincide for every uuid supply. -/
theorem parse_cards_gen_independent (t : String) (g1 g2 : Nat → String) :
    (parse_cards_from_text g1 t).map (List.map cardTCK) =
      (parse_cards_from_text g2 t).map (List.map cardTCK) := by
  unfold parse_cards_from_text
  cases h : extract_json_block t with
  | none => simp [Except.map, cardTCK]
  | some v =>
      cases v with
      | jobj f =>
          by_cases hgate : pyTruthy (.jobj f) ∧ (alookup f "cards").isSome
          · simp only [hgate, if_pos]
            cases hit : iterCardsValue ((alookup f "cards").getD (.jarr [])) with
            | error e => simp
            | ok items =>
                have hproj := coerceAll_proj items 0 g1 g2
                cases h1 : coerceAll g1 0 items with
                | error e =>
                    cases h2 : coerceAll g2 0 items with
                    | error e' =>
                        rw [h1, h2] at hproj
                        simp [Except.map] at hproj
                        simp [h1, h2, hproj]
                    | ok cs2 =>
                        rw [h1, h2] at hproj
                        simp [Except.map] at hproj
                | ok cs1 =>
                    cases h2 : coerceAll g2 0 items with
                    | error e' =>
                        rw [h1, h2] at hproj
                        simp [Except.map] at hproj
                    | ok cs2 =>
                        rw [h1, h2] at hproj
                        simp [Except.map] at hproj
                        have hlen : cs1.isEmpty = cs2.isEmpty := by
                          cases cs1 with
                          | nil => cases cs2 with
                            | nil => rfl
                            | cons a l => simp at hproj
                          | cons a l => cases cs2 with
                            | nil => simp at hproj
                            | cons b l' => rfl
                        by_cases he : cs1.isEmpty
                        · simp [h1, h2, he, ← hlen, Except.map, cardTCK]
                        · simp [h1, h2, he, ← hlen, Except.map, hproj]
          · simp only [hgate, if_neg, not_false_iff]
            simp [Except.map, cardTCK]
      | jnull => simp [Except.map, cardTCK]
      | jbool b => simp [Except.map, cardTCK]
      | jnum n => simp [Except.map, cardTCK]
      | jstr s => simp [Except.map, cardTCK]
      | jarr l => simp [Except.map, cardTCK]

theorem alookup_ne_nil {α : Type} {m : List (String × α)} {k : String} {v : α}
    (h : alookup m k = some v) : m ≠ [] := by
  intro hm
  subst hm
  simp [alookup] at h

/-- Core success lemma: when the extraction (either stage) yields an object
whose `cards` value is a non-empty array of objects, `parse_cards_from_text`
returns the coercion of those elements. -/
theorem parse_cards_ok_of_extract (t : String) (gen : Nat → String)
    (m : List (String × JValue)) (items : List JValue)
    (hx : extract_json_block t = some (.jobj m))
    (h2 : alookup m "cards" = some (.jarr items))
    (h3 : items ≠ [])
    (h4 : ∀ it ∈ items, ∃ f, it = JValue.jobj f) :
    ∃ cs, coerceAll gen 0 items = .ok cs ∧
      parse_cards_from_text gen t = .ok cs ∧ cs.length = items.length ∧
      ∀ i f, items[i]? = some (.jobj f) →
        ∃ c, cs[i]? = some c ∧
          (alookup f "id" = none → c.id = gen i) ∧
          (alookup f "title" = none → c.title = "Card " ++ toString (i + 1)) ∧
          (alookup f "content" = none → c.content = "") ∧
          (alookup f "kind" = none → c.kind = "text") := by
  obtain ⟨cs, hcs, hlen, hget⟩ := coerceAll_objs items gen 0 h4
  have hm_ne : m ≠ [] := alookup_ne_nil h2
  have hgate : (pyTruthy (.jobj m) ∧ (alookup m "cards").isSome) := by
    refine ⟨?_, by simp [h2]⟩
    simp [pyTruthy, List.isEmpty_iff, hm_ne]
  have hiter : iterCardsValue ((alookup m "cards").getD (.jarr [])) = .ok items := by
    rw [h2]
    simp [iterCardsValue, pyTruthy, List.isEmpty_iff, h3]
  have hcs_ne : cs.isEmpty = false := by
    rw [List.isEmpty_eq_false, ← List.length_pos, hlen, List.length_pos]
    exact h3
  refine ⟨cs, hcs, ?_, hlen, ?_⟩
  · unfold parse_cards_from_text
    rw [hx]
    simp only [hgate, if_pos, hiter, hcs, hcs_ne]
    simp
  · intro i f hi
    refine ⟨coerceObjCard gen (0 + i) ("Card " ++ toString (0 + i + 1)) f,
      hget i f hi, ?_, ?_, ?_, ?_⟩ <;>
      intro hnone <;>
      simp [coerceObjCard, strOrDefault, hnone]

/-- C3: when the brace-span substring (first `\x7b` to last `\x7d`) parses
to an object whose `cards` value is a non-empty array of objects,
`parse_cards_from_text` returns one `Card` per element, in order, with the
documented defaults for missing fields (a generated id, title
`"Card \x7b1-based index\x7d"`, content `""`, kind `"text"`). -/
theorem parse_cards_success_shape (t : String) (gen : Nat → String)
    (m : List (String × JValue)) (items : List JValue)
    (h1 : extractBraceSpan t = some (.jobj m))
    (h2 : alookup m "cards" = some (.jarr items))
    (h3 : items ≠ [])
    (h4 : ∀ it ∈ items, ∃ f, it = JValue.jobj f) :
    ∃ cs, parse_cards_from_text gen t = .ok cs ∧ cs.length = items.length ∧
      ∀ i f, items[i]? = some (.jobj f) →
        ∃ c, cs[i]? = some c ∧
          (alookup f "id" = none → c.id = gen i) ∧
          (alookup f "title" = none → c.title = "Card " ++ toString (i + 1)) ∧
          (alookup f "content" = none → c.content = "") ∧
          (alookup f "kind" = none → c.kind = "text") := by
  obtain ⟨cs, _, hok, hlen, hget⟩ :=
    parse_cards_ok_of_extract t gen m items (extract_json_block_of_span h1) h2 h3 h4
  exact ⟨cs, hok, hlen, hget⟩

/-- C3 witness: the theorem applied to a concrete two-card payload. -/
theorem parse_cards_success_shape_witness :
    ∃ cs, parse_cards_from_text (fun n => "uid" ++ toString n)
        "\x7b\"cards\": [\x7b\"title\": \"A\", \"content\": \"B\"\x7d, \x7b\x7d]\x7d" = .ok cs ∧
      cs.length = 2 := by
  obtain ⟨cs, hok, hlen, _⟩ :=
    parse_cards_success_shape
      "\x7b\"cards\": [\x7b\"title\": \"A\", \"content\": \"B\"\x7d, \x7b\x7d]\x7d"
      (fun n => "uid" ++ toString n)
      [("cards", .jarr [.jobj [("title", .jstr "A"), ("content", .jstr "B")], .jobj []])]
      [.jobj [("title", .jstr "A"), ("content", .jstr "B")], .jobj []]
      (by rfl) (by rfl) (by simp)
      (by
        intro it hit
        simp at hit
        rcases hit with h | h <;> exact ⟨_, h⟩)
  exact ⟨cs, hok, hlen⟩

/-- The failure condition of C4: the extraction stage yielded nothing usable —
no parsed JSON at all, a parsed object without a `cards` key, or `cards`
equal to the empty array. -/
def noUsableCards (o : Option JValue) : Prop :=
  o = none ∨
    (∃ m, o = some (.jobj m) ∧ alookup m "cards" = none) ∨
    (∃ m, o = some (.jobj m) ∧ alookup m "cards" = some (.jarr []))

/-- Core fallback lemma: when nothing usable was extracted, the single
fallback card is returned. -/
theorem parse_cards_fallback_core (t : String) (gen : Nat → String)
    (h : noUsableCards (extract_json_block t)) :
    parse_cards_from_text gen t =
      .ok [{ id := gen 0, title := "Response", content := pyStrip t, kind := "text" }] := by
  unfold parse_cards_from_text
  rcases h with h | ⟨m, hm, hc⟩ | ⟨m, hm, hc⟩
  · rw [h]
  · rw [hm]
    have : ¬ (pyTruthy (.jobj m) ∧ (alookup m "cards").isSome) := by
      simp [hc]
    simp only [this, if_neg, not_false_iff]
  · rw [hm]
    have hm_ne : m ≠ [] := alookup_ne_nil hc
    have hgate : (pyTruthy (.jobj m) ∧ (alookup m "cards").isSome) := by
      refine ⟨?_, by simp [hc]⟩
      simp [pyTruthy, List.isEmpty_iff, hm_ne]
    have hiter : iterCardsValue ((alookup m "cards").getD (.jarr [])) = .ok [] := by
      rw [hc]
      simp [iterCardsValue, pyTruthy]
    simp only [hgate, if_pos, hiter]
    simp [coerceAll]

/-- C4: when nothing usable can be extracted — no parseable JSON, a parsed
object without a `cards` key, or `cards` equal to the empty array —
`parse_cards_from_text` returns exactly one fallback card: a generated id,
title `"Response"`, content the whitespace-trimmed raw text, kind `"text"`. -/
theorem parse_cards_fallback (t : String) (gen : Nat → String)
    (h : noUsableCards (extract_json_block t)) :
    parse_cards_from_text gen t =
      .ok [{ id := gen 0, title := "Response", content := pyStrip t, kind := "text" }] :=
  parse_cards_fallback_core t gen h

/-- C4 witness: the exact input of the spec's edge case, an object whose
`cards` is the empty array, degrades to the single fallback card. -/
theorem parse_cards_fallback_witness :
    parse_cards_from_text (fun n => "uid" ++ toString n) "\x7b\"cards\":[]\x7d" =
      .ok [{ id := "uid0", title := "Response", content := "\x7b\"cards\":[]\x7d",
             kind := "text" }] := by
  have h := parse_cards_fallback "\x7b\"cards\":[]\x7d" (fun n => "uid" ++ toString n)
    (Or.inr (Or.inr ⟨[("cards", .jarr [])], by rfl, by rfl⟩))
  simpa using h

/-- A concrete uuid supply used by witnesses and counterexamples. -/
def genU : Nat → String := fun n => "uid" ++ toString n

/-- C1 (failing input): on extracted JSON whose `cards` array contains a
non-object element — here the exact input `'\x7b"cards": [1]\x7d'` — the
coercion loop evaluates `item.get("id")` on an `int` and raises
`AttributeError`, and likewise `parse_followup_from_text` on
`'\x7b"card": 1\x7d'`; contrary to the never-raises contract, the call
yields an error, not a Card list. -/
theorem parse_raises_on_non_object_item :
    parse_cards_from_text genU "\x7b\"cards\": [1]\x7d" =
      .error ("AttributeError: " ++ squote.toString ++ "int" ++ squote.toString ++
        " object has no attribute " ++ squote.toString ++ "get" ++ squote.toString) ∧
    parse_followup_from_text genU "\x7b\"card\": 1\x7d" =
      .error ("AttributeError: " ++ squote.toString ++ "int" ++ squote.toString ++
        " object has no attribute " ++ squote.toString ++ "get" ++ squote.toString) :=
  ⟨rfl, rfl⟩

/-- C10: in the shared card coercion (`str(item.get(key) or default)`), a
present-but-falsy field value (empty string, `0`, `false`, `null`, empty
containers) is treated exactly like a missing field and replaced by the
default, while a truthy value is stringified via `str`. -/
theorem coerce_falsy_fields_default (gen : Nat → String) (idx : Nat)
    (td : String) (f : List (String × JValue)) :
    ∃ c, coerceCardItem gen idx td (.jobj f) = .ok c ∧
      (∀ v, alookup f "id" = some v →
        (pyTruthy v = false → c.id = gen idx) ∧ (pyTruthy v = true → c.id = pyStr v)) ∧
      (∀ v, alookup f "title" = some v →
        (pyTruthy v = false → c.title = td) ∧ (pyTruthy v = true → c.title = pyStr v)) ∧
      (∀ v, alookup f "content" = some v →
        (pyTruthy v = false → c.content = "") ∧ (pyTruthy v = true → c.content = pyStr v)) ∧
      (∀ v, alookup f "kind" = some v →
        (pyTruthy v = false → c.kind = "text") ∧ (pyTruthy v = true → c.kind = pyStr v)) := by
  refine ⟨coerceObjCard gen idx td f, rfl, ?_, ?_, ?_, ?_⟩ <;>
    intro v hv <;>
    constructor <;>
    intro ht <;>
    simp [coerceObjCard, strOrDefault, hv, ht]

/-- The falsy-field element used by the C10 witness:
`\x7b"id": "", "title": null, "content": 0, "kind": false\x7d`. -/
def falsyFields : List (String × JValue) :=
  [("id", .jstr ""), ("title", .jnull), ("content", .jnum 0), ("kind", .jbool false)]

/-- C10 witness: all four falsy fields of `falsyFields` fall back to the
defaults. -/
theorem coerce_falsy_fields_default_witness :
    (coerceCardItem genU 0 "Clarification" (.jobj falsyFields)).map cardTCK =
      .ok ("Clarification", "", "text") ∧
    (coerceCardItem genU 0 "Clarification" (.jobj falsyFields)).map Card.id =
      .ok "uid0" := by
  obtain ⟨c, hc, hid, hti, hco, hki⟩ :=
    coerce_falsy_fields_default genU 0 "Clarification" falsyFields
  have h1 : c.id = genU 0 := (hid (.jstr "") (by rfl)).1 (by rfl)
  have h2 : c.title = "Clarification" := (hti .jnull (by rfl)).1 (by rfl)
  have h3 : c.content = "" := (hco (.jnum 0) (by rfl)).1 (by rfl)
  have h4 : c.kind = "text" := (hki (.jbool false) (by rfl)).1 (by rfl)
  rw [hc]
  constructor
  · simp [Except.map, cardTCK, h2, h3, h4]
  · simp only [Except.map, h1]
    rfl

/-- The C2 counterexample input: the whole text is a valid JSON object (so
the brace-span stage succeeds) without a `cards` key, while a parseable
fenced ```json block is present inside a string value. -/
def fenceSkippedInput : String := "\x7b\"a\": \"```json \x7b\x7d ```\"\x7d"

/-- C2 counterexample: for `fenceSkippedInput`, the step-1 span parses to an
object without a `cards` key — a "failure" in the claim's sense — and a
well-formed fenced ```json block is present and parseable, yet the fenced
stage is never attempted: the parser resorts directly to the fallback card.
The claim's "attempts the fenced block stage before resorting to the single
fallback Card" is false at this input. -/
theorem fence_stage_skipped_counterexample :
    extractBraceSpan fenceSkippedInput =
      some (.jobj [("a", .jstr "```json \x7b\x7d ```")]) ∧
    alookup [("a", JValue.jstr "```json \x7b\x7d ```")] "cards" = none ∧
    fenceSearch fenceSkippedInput.data = some "\x7b\x7d".data ∧
    jsonLoadsL "\x7b\x7d".data = some (.jobj []) ∧
    fenceStageAttempted fenceSkippedInput = false ∧
    parse_cards_from_text genU fenceSkippedInput =
      .ok [{ id := "uid0", title := "Response", content := fenceSkippedInput,
             kind := "text" }] :=
  ⟨rfl, rfl, rfl, rfl, rfl, rfl⟩

/-- C2 (amended): the fenced ```json stage runs only when the brace-span
stage yields no parsed JSON — a span that parses without a usable `cards`
array short-circuits to the fallback card without consulting the fence —
and when the span is unparseable and the fenced block parses to an object
with a non-empty `cards` array of objects, those cards are returned. -/
theorem extract_fenced_stage_amended :
    (∀ t v, extractBraceSpan t = some v → extract_json_block t = some v) ∧
    (∀ t gen m, extractBraceSpan t = some (.jobj m) →
      (alookup m "cards" = none ∨ alookup m "cards" = some (.jarr [])) →
      parse_cards_from_text gen t =
        .ok [{ id := gen 0, title := "Response", content := pyStrip t,
               kind := "text" }]) ∧
    (∀ t gen grp m items, extractBraceSpan t = none →
      fenceSearch t.data = some grp →
      jsonLoadsL grp = some (.jobj m) →
      alookup m "cards" = some (.jarr items) →
      items ≠ [] →
      (∀ it ∈ items, ∃ f, it = JValue.jobj f) →
      ∃ cs, coerceAll gen 0 items = .ok cs ∧
        parse_cards_from_text gen t = .ok cs) := by
  refine ⟨fun t v h => extract_json_block_of_span h, ?_, ?_⟩
  · intro t gen m hspan hc
    apply parse_cards_fallback_core
    rcases hc with hc | hc
    · exact Or.inr (Or.inl ⟨m, extract_json_block_of_span hspan, hc⟩)
    · exact Or.inr (Or.inr ⟨m, extract_json_block_of_span hspan, hc⟩)
  · intro t gen grp m items hspan hf hj hc hne hobjs
    have hx : extract_json_block t = some (.jobj m) := by
      rw [extract_json_block_of_fence hspan, hf]
      exact hj
    obtain ⟨cs, hcs, hok, _, _⟩ :=
      parse_cards_ok_of_extract t gen m items hx hc hne hobjs
    exact ⟨cs, hcs, hok⟩

/-- The positive-input text for the C2 amended witness: the span from the
first `\x7b` to the last `\x7d` is unparseable, and the fenced block carries
a one-card payload. -/
def fenceUsedInput : String := "\x7b\"a\": 1\x7d ```json \x7b\"cards\": [\x7b\x7d]\x7d ```"

/-- C2 witness: the amended theorem applied to `fenceUsedInput` — the fenced
block's single empty-object card is returned, coerced with all defaults. -/
theorem extract_fenced_stage_amended_witness :
    parse_cards_from_text genU fenceUsedInput =
      .ok [{ id := "uid0", title := "Card 1", content := "", kind := "text" }] := by
  obtain ⟨cs, hcs, hok⟩ :=
    extract_fenced_stage_amended.2.2 fenceUsedInput genU
      "\x7b\"cards\": [\x7b\x7d]\x7d".data [("cards", .jarr [.jobj []])] [.jobj []]
      (by rfl) (by rfl) (by rfl) (by rfl) (by simp)
      (by intro it hit; simp at hit; exact ⟨[], hit⟩)
  have hval : coerceAll genU 0 [JValue.jobj []] =
      Except.ok [{ id := "uid0", title := "Card 1", content := "", kind := "text" }] := rfl
  rw [hval] at hcs
  rw [hok, ← Except.ok.inj hcs]

/-- The provider name `resolve_provider_and_model` looks up before any
fallback: the requested provider if truthy, else the configured default,
lower-cased. -/
def requestedProviderName (cfg : ModelsConfig) (provider : Option String) : String :=
  pyLower (match provider with
   | some p => if p.isEmpty then cfg.default_provider else p
   | none => cfg.default_provider)

/-- `settings.models.providers.get("mock", ["mock-model"])[0]` with the
empty-list guard: the model the resolver falls back to. -/
def mockFirstModel (cfg : ModelsConfig) : String :=
  match (alookup cfg.providers "mock").getD ["mock-model"] with
  | x :: _ => x
  | [] => "mock-model"

/-- C5: the three router-resolution examples — an unknown provider resolves
to `("mock", first mock model)`, no request resolves to the configured
default and its first model, and an explicit model override is used verbatim
even when absent from the configured list. -/
theorem resolve_router_examples (cfg : ModelsConfig)
    (m0 : String) (ms : List String)
    (hmock : alookup cfg.providers "mock" = some (m0 :: ms))
    (hunknown : alookup cfg.providers "unknown-provider" = none)
    (dm : String) (dms : List String)
    (hdp : pyLower cfg.default_provider = cfg.default_provider)
    (hdef : alookup cfg.providers cfg.default_provider = some (dm :: dms))
    (o0 : String) (os : List String)
    (hopenai : alookup cfg.providers "openai" = some (o0 :: os)) :
    resolve_provider_and_model cfg (some "unknown-provider") none = ("mock", m0) ∧
    resolve_provider_and_model cfg none none = (cfg.default_provider, dm) ∧
    resolve_provider_and_model cfg (some "openai") (some "gpt-custom") =
      ("openai", "gpt-custom") := by
  refine ⟨?_, ?_, ?_⟩
  · simp [resolve_provider_and_model,
      show ("unknown-provider" : String).isEmpty = false from rfl,
      show pyLower "unknown-provider" = "unknown-provider" from rfl,
      hunknown, hmock]
  · simp [resolve_provider_and_model, hdp, hdef]
  · simp [resolve_provider_and_model,
      show ("openai" : String).isEmpty = false from rfl,
      show pyLower "openai" = "openai" from rfl,
      show ("gpt-custom" : String).isEmpty = false from rfl,
      hopenai]

/-- The configuration used by the router witnesses. -/
def cfgW : ModelsConfig :=
  { default_provider := "openai",
    providers := [("openai", ["gpt-4o-mini", "gpt-4o"]), ("mock", ["mock-model"])] }

/-- C5 witness: the three examples evaluated on `cfgW` (note `"gpt-custom"`
is not in `cfgW`'s openai list). -/
theorem resolve_router_examples_witness :
    resolve_provider_and_model cfgW (some "unknown-provider") none = ("mock", "mock-model") ∧
    resolve_provider_and_model cfgW none none = ("openai", "gpt-4o-mini") ∧
    resolve_provider_and_model cfgW (some "openai") (some "gpt-custom") =
      ("openai", "gpt-custom") := by
  obtain ⟨h1, h2, h3⟩ :=
    resolve_router_examples cfgW "mock-model" [] (by rfl) (by rfl)
      "gpt-4o-mini" ["gpt-4o"] (by rfl) (by rfl) "gpt-4o-mini" ["gpt-4o"] (by rfl)
  exact ⟨h1, h2, h3⟩

/-- C7: `resolve_provider_and_model` is a total function (it returns a
provider/model pair for every input, with no error case in its type), and
when the requested provider is unknown or has no configured models it
degrades to the mock provider — with the mock model list's head (or
`"mock-model"`) as the model unless an override was supplied, in which case
the override is used verbatim. -/
theorem resolve_total_degrades_to_mock (cfg : ModelsConfig)
    (provider model_override : Option String)
    (h : alookup cfg.providers (requestedProviderName cfg provider) = none ∨
         alookup cfg.providers (requestedProviderName cfg provider) = some []) :
    (resolve_provider_and_model cfg provider model_override).1 = "mock" ∧
    ((match model_override with
      | some m => m.isEmpty
      | none => true) = true →
      (resolve_provider_and_model cfg provider model_override).2 = mockFirstModel cfg) ∧
    (∀ m, model_override = some m → m.isEmpty = false →
      (resolve_provider_and_model cfg provider model_override).2 = m) := by
  have hreq : ∀ r, resolve_provider_and_model cfg provider model_override = r →
      True := fun _ _ => trivial
  rcases h with h | h <;>
  · refine ⟨?_, ?_, ?_⟩
    · simp [resolve_provider_and_model, requestedProviderName] at h ⊢
      rw [h]
      cases model_override with
      | none => rfl
      | some m =>
          by_cases hm : m.isEmpty <;> simp [hm]
    · intro hov
      simp [resolve_provider_and_model, requestedProviderName, mockFirstModel] at h ⊢
      rw [h]
      cases model_override with
      | none => cases (alookup cfg.providers "mock").getD ["mock-model"] <;> simp
      | some m =>
          simp at hov
          cases (alookup cfg.providers "mock").getD ["mock-model"] <;> simp [hov]
    · intro m hm hne
      subst hm
      simp [resolve_provider_and_model, requestedProviderName] at h ⊢
      rw [h]
      simp [hne]

/-- C7 witness: an unconfigured provider name on a mock-only configuration
degrades to `("mock", "mock-model")`. -/
theorem resolve_total_degrades_to_mock_witness :
    resolve_provider_and_model
      { default_provider := "mock", providers := [("mock", ["mock-model"])] }
      (some "anthropic") none = ("mock", "mock-model") := by
  obtain ⟨h1, h2, _⟩ :=
    resolve_total_degrades_to_mock
      { default_provider := "mock", providers := [("mock", ["mock-model"])] }
      (some "anthropic") none (Or.inl (by rfl))
  have h2' := h2 rfl
  calc resolve_provider_and_model _ (some "anthropic") none
      = ((resolve_provider_and_model _ (some "anthropic") none).1,
         (resolve_provider_and_model _ (some "anthropic") none).2) := rfl
    _ = ("mock", "mock-model") := by
        rw [h1, h2']
        rfl

/-- The environment variable whose absence blocks each keyed provider. -/
def keyEnvVar (p : String) : String :=
  if p = "openai" then "OPENAI_API_KEY"
  else if p = "gemini" then "GEMINI_API_KEY"
  else if p = "deepseek" then "DEEPSEEK_API_KEY"
  else ""

/-- C8: when the resolved provider is openai, gemini or deepseek and the
corresponding API key is unset (falsy), `generate` fails with the message
instructing the user to configure the key or switch to mock.  The error is
raised before any provider call: the result is the same for every provider
oracle and every elapsed-time measurement, and as an `.error` it carries no
text and no usage. -/
theorem generate_missing_key_fails_early (keys : ApiKeys) (cfg : ModelsConfig)
    (oracle oracle2 : String → String → String × BaseUsage)
    (elapsed elapsed2 : Int) (provider model : Option String)
    (h : ((resolve_provider_and_model cfg provider model).1 = "openai" ∧
            optTruthy keys.openai_api_key = false) ∨
         ((resolve_provider_and_model cfg provider model).1 = "gemini" ∧
            optTruthy keys.gemini_api_key = false) ∨
         ((resolve_provider_and_model cfg provider model).1 = "deepseek" ∧
            optTruthy keys.deepseek_api_key = false)) :
    llm_generate keys cfg oracle elapsed provider model =
      .error (keyMissingMsg (keyEnvVar (resolve_provider_and_model cfg provider model).1)) ∧
    llm_generate keys cfg oracle elapsed provider model =
      llm_generate keys cfg oracle2 elapsed2 provider model := by
  rcases h with ⟨hp, hk⟩ | ⟨hp, hk⟩ | ⟨hp, hk⟩ <;>
    constructor <;>
    simp [llm_generate, hp, hk, keyEnvVar, Except.map]

/-- C8 witness: with no keys configured, requesting openai on `cfgW` fails
with the openai key message, for two different oracles and latencies. -/
theorem generate_missing_key_fails_early_witness :
    llm_generate ⟨none, none, none⟩ cfgW (fun _ _ => ("T", ⟨none, none⟩)) 5
        (some "openai") none =
      .error (keyMissingMsg "OPENAI_API_KEY") ∧
    llm_generate ⟨none, none, none⟩ cfgW (fun _ _ => ("T", ⟨none, none⟩)) 5
        (some "openai") none =
      llm_generate ⟨none, none, none⟩ cfgW (fun _ _ => ("U", ⟨some 1, some 2⟩)) 99
        (some "openai") none := by
  obtain ⟨h1, h2⟩ :=
    generate_missing_key_fails_early ⟨none, none, none⟩ cfgW
      (fun _ _ => ("T", ⟨none, none⟩)) (fun _ _ => ("U", ⟨some 1, some 2⟩)) 5 99
      (some "openai") none (Or.inl ⟨by rfl, by rfl⟩)
  exact ⟨h1, h2⟩

theorem alookup_upsert_ne {α : Type} (m : List (String × α)) (k k' : String)
    (v : α) (h : k' ≠ k) : alookup (upsert m k' v) k = alookup m k := by
  induction m with
  | nil => simp [upsert, alookup, h]
  | cons hd tl ih =>
      by_cases hk : hd.1 = k'
      · simp [upsert, hk, alookup, h]
      · simp [upsert, hk, alookup]
        by_cases hk2 : hd.1 = k <;> simp [hk2, ih]

theorem alookup_append_left_none {α : Type} (xs ys : List (String × α))
    (k : String) (h : alookup xs k = none) :
    alookup (xs ++ ys) k = alookup ys k := by
  induction xs with
  | nil => rfl
  | cons hd tl ih =>
      by_cases hk : hd.1 = k
      · simp [alookup, hk] at h
      · simp [alookup, hk] at h ⊢
        exact ih h

theorem normalizeProviders_no_key (entries : List (String × JValue))
    (k : String) (h : ∀ kv ∈ entries, pyLower kv.1 ≠ k) :
    alookup (normalizeProviders entries) k = none := by
  suffices haux : ∀ acc : List (String × List String), alookup acc k = none →
      alookup (entries.foldl
        (fun acc kv => upsert acc (pyLower kv.1) (normalizeModelsValue kv.2)) acc) k = none by
    exact haux [] rfl
  induction entries with
  | nil => intro acc hacc; simpa using hacc
  | cons hd tl ih =>
      intro acc hacc
      simp only [List.foldl_cons]
      exact ih (fun kv hkv => h kv (List.mem_cons_of_mem _ hkv))
        (upsert acc (pyLower hd.1) (normalizeModelsValue hd.2))
        (by rw [alookup_upsert_ne _ _ _ _ (h hd (List.mem_cons_self _ _))]; exact hacc)

/-- The raw-providers extraction prefix of `build_models_config`, used to
state which entries the normalization loop iterates. -/
def rawProvidersEntries (raw : JValue) : Except String (List (String × JValue)) := do
  let ms ← modelsSectionOf raw
  let _ ← defaultProviderOf ms
  let pv ← providersValueOf ms
  providersEntriesOf pv

/-- C6 (amended): every successfully built configuration has a `"mock"`
provider key; and when the raw providers section has no key lowercasing to
`"mock"`, that entry is exactly `["mock-model"]` (non-empty).  (A raw mock
entry is normalized as given and may be empty.) -/
theorem build_config_mock_presence :
    (∀ raw cfg, build_models_config raw = .ok cfg →
      (alookup cfg.providers "mock").isSome) ∧
    (∀ raw cfg entries, build_models_config raw = .ok cfg →
      rawProvidersEntries raw = .ok entries →
      (∀ kv ∈ entries, pyLower kv.1 ≠ "mock") →
      alookup cfg.providers "mock" = some ["mock-model"]) := by
  constructor
  · intro raw cfg hb
    simp only [build_models_config, bind, Except.bind] at hb
    cases hms : modelsSectionOf raw with
    | error e => simp [hms] at hb
    | ok ms =>
        simp only [hms] at hb
        cases hdp : defaultProviderOf ms with
        | error e => simp [hdp] at hb
        | ok dp0 =>
            simp only [hdp] at hb
            cases hpv : providersValueOf ms with
            | error e => simp [hpv] at hb
            | ok pv =>
                simp only [hpv] at hb
                cases hpe : providersEntriesOf pv with
                | error e => simp [hpe] at hb
                | ok entries =>
                    simp only [hpe, pure, Except.pure, Except.ok.injEq] at hb
                    subst hb
                    simp only
                    cases hmk : alookup (normalizeProviders entries) "mock" with
                    | some l => simp [hmk]
                    | none =>
                        simp [hmk, alookup_append_left_none _ _ _ hmk, alookup]
  · intro raw cfg entries hb he hnm
    simp only [build_models_config, bind, Except.bind] at hb
    simp only [rawProvidersEntries, bind, Except.bind] at he
    cases hms : modelsSectionOf raw with
    | error e => simp [hms] at hb
    | ok ms =>
        simp only [hms] at hb he
        cases hdp : defaultProviderOf ms with
        | error e => simp [hdp] at hb
        | ok dp0 =>
            simp only [hdp] at hb he
            cases hpv : providersValueOf ms with
            | error e => simp [hpv] at hb
            | ok pv =>
                simp only [hpv] at hb he
                cases hpe : providersEntriesOf pv with
                | error e => simp [hpe] at hb
                | ok entries' =>
                    simp only [hpe, pure, Except.pure, Except.ok.injEq] at hb he
                    subst he
                    subst hb
                    have hmk : alookup (normalizeProviders entries') "mock" = none :=
                      normalizeProviders_no_key entries' "mock" hnm
                    simp [hmk, alookup_append_left_none _ _ _ hmk, alookup]

/-- The C6 counterexample input: a raw YAML mapping whose providers section
maps `mock` to an empty list. -/
def rawMockEmptyList : JValue :=
  .jobj [("models", .jobj [("providers", .jobj [("mock", .jarr [])])])]

/-- C6 counterexample: normalizing a raw configuration with `mock: []`
yields a configuration whose `"mock"` model list is empty — the guard in
`_build_models_config` only ensures the key exists, not that its list is
non-empty, so the claimed invariant fails for this raw input. -/
theorem mock_models_empty_counterexample :
    build_models_config rawMockEmptyList =
      .ok { default_provider := "mock", providers := [("mock", [])] } ∧
    (build_models_config rawMockEmptyList).map
      (fun c => alookup c.providers "mock") = .ok (some []) :=
  ⟨rfl, rfl⟩

/-- The raw input of the C6 witness: providers without any mock key. -/
def rawNoMockW : JValue :=
  .jobj [("models", .jobj
    [("providers", .jobj [("openai", .jarr [.jstr "gpt-4o-mini"])])])]

/-- C6 witness: on a raw configuration without a mock key, the normalized
mock entry is exactly `["mock-model"]`. -/
theorem build_config_mock_presence_witness :
    (build_models_config rawNoMockW).map (fun c => alookup c.providers "mock") =
      .ok (some ["mock-model"]) := by
  have hb : build_models_config rawNoMockW =
      .ok { default_provider := "mock",
            providers := [("openai", ["gpt-4o-mini"]), ("mock", ["mock-model"])] } := rfl
  have h := build_config_mock_presence.2 rawNoMockW _
    [("openai", .jarr [.jstr "gpt-4o-mini"])] hb (by rfl)
    (by
      intro kv hkv
      simp at hkv
      subst hkv
      decide)
  rw [hb]
  simpa [Except.map] using h
